import Mathlib

/-!
A shallow embedding of the `arrayfire_serde` crate (`src/lib.rs`): serde
serialization and deserialization of arrayfire `DType`, `Dim4` and `Array`
values, with proofs about the resulting wire format.

Modelling conventions:
* machine integers are `Nat`/`Int`, with explicit `% 2 ^ w` where the Rust
  code truncates (`value as i32`, `*self.0 as u8`);
* floating point elements are carried as raw bit patterns (`Nat`), since the
  codec never computes with them, only copies them — this makes bit-exact
  round-trips directly expressible;
* a (de)serialization call that can end four ways is modelled by `DResult`:
  normal return, a typed error through serde's error channel, a process
  abort through `panic!`/`expect`, or undefined behaviour (an out-of-range
  `transmute`, or an out-of-bounds read in `Array::new`).
-/

namespace ArrayfireSerde

/-- The arrayfire `DType` enumeration, with the discriminants of the
C-compatible `af_dtype` enumeration the crate links against:
F32 = 0, C32 = 1, F64 = 2, C64 = 3, B8 = 4, S32 = 5, U32 = 6, U8 = 7,
S64 = 8, U64 = 9, S16 = 10, U16 = 11. -/
inductive DType where
  | F32
  | C32
  | F64
  | C64
  | B8
  | S32
  | U32
  | U8
  | S64
  | U64
  | S16
  | U16
deriving DecidableEq, Repr, Fintype

/-- The integer discriminant of a `DType` value (its `af_dtype` value). -/
def DType.discriminant : DType → Nat
  | .F32 => 0
  | .C32 => 1
  | .F64 => 2
  | .C64 => 3
  | .B8 => 4
  | .S32 => 5
  | .U32 => 6
  | .U8 => 7
  | .S64 => 8
  | .U64 => 9
  | .S16 => 10
  | .U16 => 11

/-- The element types the crate's `Array` codec supports: the nine arms of
the `match dtype` in `Ser<Array>::serialize` and `ArrayVisitor::visit_seq`.
Complex kinds (`C32`, `C64`) and `U8` fall into the `panic!` default arm. -/
def DType.isSupported : DType → Bool
  | .F32 => true
  | .F64 => true
  | .S16 => true
  | .S32 => true
  | .S64 => true
  | .U16 => true
  | .U32 => true
  | .U64 => true
  | .B8 => true
  | _ => false

/-- Outcome of one (de)serialization call: `ok`, a typed error surfaced
through serde's error channel (`formatError`), a process abort via
`panic!`/`expect` (`panicked`), or undefined behaviour (`ub`). -/
inductive DResult (α : Type) where
  | ok (a : α)
  | formatError
  | panicked
  | ub
deriving DecidableEq, Repr

/-- Sequencing of calls: errors, panics and undefined behaviour propagate. -/
def DResult.bind {α β : Type} : DResult α → (α → DResult β) → DResult β
  | .ok a, f => f a
  | .formatError, _ => .formatError
  | .panicked, _ => .panicked
  | .ub, _ => .ub

/-- `Ser<DType>::serialize`: `let enum_value = *self.0 as u8`, then
`serializer.serialize_u8(enum_value)`. The `as u8` cast truncates the
discriminant modulo 256. -/
def serializeDType (d : DType) : Nat := d.discriminant % 256

/-- `std::mem::transmute::<i32, DType>`: yields the variant with the given
discriminant when one exists, and is undefined behaviour otherwise. -/
def transmuteDType (i : Int) : DResult DType :=
  if i = 0 then .ok .F32
  else if i = 1 then .ok .C32
  else if i = 2 then .ok .F64
  else if i = 3 then .ok .C64
  else if i = 4 then .ok .B8
  else if i = 5 then .ok .S32
  else if i = 6 then .ok .U32
  else if i = 7 then .ok .U8
  else if i = 8 then .ok .S64
  else if i = 9 then .ok .U64
  else if i = 10 then .ok .S16
  else if i = 11 then .ok .U16
  else .ub

/-- `DTypeVisitor::visit_u8`: `transmute(i32::from(value))`, where the byte
widens losslessly to `i32`. -/
def visitU8 (value : Nat) : DResult DType := transmuteDType (Int.ofNat value)

/-- The Rust cast `value as i32` applied to a `u64`: keep the low 32 bits
and reinterpret them as a two's-complement signed 32-bit integer. -/
def u64AsI32 (value : Nat) : Int :=
  if value % 2 ^ 32 < 2 ^ 31 then ((value % 2 ^ 32 : Nat) : Int)
  else ((value % 2 ^ 32 : Nat) : Int) - 2 ^ 32

/-- `DTypeVisitor::visit_u64`: `transmute(value as i32)`. -/
def visitU64 (value : Nat) : DResult DType := transmuteDType (u64AsI32 value)

/-- C9: the element type float64 (`DType::F64`) encodes to the single byte 2,
and decoding the byte 2 yields float64 — exactly what the crate's
`test_dtype` test pins down with `Token::U8(2)`. -/
theorem dtype_f64_tag :
    serializeDType DType.F64 = 2 ∧ visitU8 2 = DResult.ok DType.F64 := by
  decide

/-- C2 counterexample: the claimed tag table assigns float64 the tag 1, but
`DType::F64 as u8` is 2 (hence the claimed table, and the claimed bijection
onto the tag set {0..8}, are false of the code). -/
theorem dtype_tag_table_counterexample :
    serializeDType DType.F64 = 2 ∧ ¬ serializeDType DType.F64 = 1 := by
  decide

/-- C2 amended: the encoder maps each kind to its arrayfire discriminant —
float32 to 0, float64 to 2, int16 to 10, int32 to 5, int64 to 8, uint16 to
11, uint32 to 6, uint64 to 9, boolean to 4 — so the nine supported kinds hit
the tag set {0, 2, 4, 5, 6, 8, 9, 10, 11}, and decoding inverts encoding on
every `DType` value (in particular encode/decode form a bijection between
the nine supported kinds and their nine distinct tags). -/
theorem dtype_tag_table_actual :
    ([DType.F32, DType.F64, DType.S16, DType.S32, DType.S64, DType.U16,
        DType.U32, DType.U64, DType.B8].map serializeDType
      = [0, 2, 10, 5, 8, 11, 6, 9, 4]) ∧
    (∀ d : DType, visitU8 (serializeDType d) = DResult.ok d) := by
  decide

/-- C3: decoding a byte outside the enumeration's discriminant range is an
unchecked `transmute` — undefined behaviour, not a typed
`UnknownElementTypeError` (no such error exists in the code) — and the byte
9, outside the claimed valid set {0..8}, even decodes successfully. -/
theorem dtype_decode_invalid_byte_behavior :
    visitU8 12 = DResult.ub ∧ visitU8 255 = DResult.ub ∧
    visitU8 9 = DResult.ok DType.U64 := by
  decide

/-- C10: `DTypeVisitor::visit_u64` truncates with `value as i32`, so only
the low 32 bits of the tag matter: decoding any `u64` value agrees with
decoding that value modulo 2^32, and e.g. 2^32 + 2 aliases the float64 tag
instead of being rejected. -/
theorem dtype_visit_u64_low_bits :
    (∀ v : Nat, visitU64 v = visitU64 (v % 2 ^ 32)) ∧
    visitU64 (2 ^ 32 + 2) = DResult.ok DType.F64 := by
  refine ⟨fun v => ?_, by decide⟩
  unfold visitU64 u64AsI32
  rw [Nat.mod_mod_of_dvd v dvd_rfl]

/-- A scalar value in serde's data model, as it appears on the wire.
Floating-point values are carried as raw bit patterns, signed integers as
mathematical integers, so copying them is exactly the identity. -/
inductive Val where
  | u16 (v : Nat)
  | u32 (v : Nat)
  | u64 (v : Nat)
  | i16 (v : Int)
  | i32 (v : Int)
  | i64 (v : Int)
  | f32 (bits : Nat)
  | f64 (bits : Nat)
  | b (v : Bool)
deriving DecidableEq, Repr

/-- serde's deserialization of a `u64` from a wire scalar: any unsigned
integer widens, a signed integer is accepted when non-negative, and
floating-point or boolean values are a type error. -/
def valAsU64 : Val → Option Nat
  | .u64 n => some n
  | .u32 n => some n
  | .u16 n => some n
  | .i16 v => if 0 ≤ v then some v.toNat else none
  | .i32 v => if 0 ≤ v then some v.toNat else none
  | .i64 v => if 0 ≤ v then some v.toNat else none
  | .f32 _ => none
  | .f64 _ => none
  | .b _ => none

/-- The arrayfire `Dim4`: four `u64` axis extents. -/
structure Dim4 where
  d0 : Nat
  d1 : Nat
  d2 : Nat
  d3 : Nat
deriving DecidableEq, Repr

/-- `Dim4::elements` / `Array::elements`: the product of the four extents. -/
def Dim4.elements (d : Dim4) : Nat := d.d0 * d.d1 * d.d2 * d.d3

/-- `Ser<Dim4>::serialize`: a 4-tuple of the extents, serialized as `u64`
values in axis order (`get()[0]` through `get()[3]`). -/
def serializeDim4 (d : Dim4) : List Val :=
  [Val.u64 d.d0, Val.u64 d.d1, Val.u64 d.d2, Val.u64 d.d3]

/-- One `visitor.next_element::<u64>()?.expect("has element")` step of
`Dim4Visitor::visit_seq`: on an exhausted sequence `next_element` returns
`Ok(None)` and the `expect` panics; on an element that does not deserialize
as a non-negative 64-bit integer the `?` propagates serde's type error. -/
def nextU64 : List Val → DResult (Nat × List Val)
  | [] => .panicked
  | v :: rest =>
    match valAsU64 v with
    | some n => .ok (n, rest)
    | none => .formatError

/-- `De<Dim4>::deserialize` via `Dim4Visitor::visit_seq`: four positional
`next_element` reads, then `Dim4::new(&[d0, d1, d2, d3])`. -/
def deserializeDim4 (l : List Val) : DResult Dim4 :=
  DResult.bind (nextU64 l) fun s0 =>
  DResult.bind (nextU64 s0.2) fun s1 =>
  DResult.bind (nextU64 s1.2) fun s2 =>
  DResult.bind (nextU64 s2.2) fun s3 =>
  DResult.ok ⟨s0.1, s1.1, s2.1, s3.1⟩

/-- Decoding inverts encoding for every `Dim4` (shared helper). -/
theorem deserializeDim4_serializeDim4 (d : Dim4) :
    deserializeDim4 (serializeDim4 d) = DResult.ok d := rfl

/-- C7: the shape codec is a bijection: encoding emits the four axis extents
as `u64` values in axis order, decoding reads them back positionally and
inverts encoding on every 4-tuple (hence encoding is injective), and the
shape [1,2,3,4] encodes to the ordered integers (1,2,3,4) and decodes back
to [1,2,3,4]. -/
theorem dim4_codec_bijection :
    (∀ d : Dim4, serializeDim4 d
      = [Val.u64 d.d0, Val.u64 d.d1, Val.u64 d.d2, Val.u64 d.d3]) ∧
    (∀ d : Dim4, deserializeDim4 (serializeDim4 d) = DResult.ok d) ∧
    serializeDim4 ⟨1, 2, 3, 4⟩ = [Val.u64 1, Val.u64 2, Val.u64 3, Val.u64 4] ∧
    deserializeDim4 [Val.u64 1, Val.u64 2, Val.u64 3, Val.u64 4]
      = DResult.ok ⟨1, 2, 3, 4⟩ := by
  exact ⟨fun d => rfl, fun d => deserializeDim4_serializeDim4 d, rfl, rfl⟩

/-- C8 counterexample: a record with fewer than 4 elements does not fail
with a recoverable `FormatError` — the `expect("has element")` panics. -/
theorem dim4_decode_short_panics :
    deserializeDim4 [Val.u64 1, Val.u64 2] = DResult.panicked ∧
    ¬ deserializeDim4 [Val.u64 1, Val.u64 2] = DResult.formatError := by
  decide

/-- C8 amended: a record with fewer than 4 elements, all of them readable
as non-negative 64-bit integers, makes shape deserialization panic through
`expect("has element")` (a process abort, not a recoverable error); a record
whose first 4 elements include one not interpretable as a non-negative
64-bit integer fails with serde's type error (`FormatError`). -/
theorem dim4_decode_failures (l : List Val) :
    (l.length < 4 → (∀ v ∈ l, (valAsU64 v).isSome = true) →
      deserializeDim4 l = DResult.panicked) ∧
    (∀ a b c e rest, l = a :: b :: c :: e :: rest →
      ((valAsU64 a).isSome && (valAsU64 b).isSome && (valAsU64 c).isSome &&
        (valAsU64 e).isSome) = false →
      deserializeDim4 l = DResult.formatError) := by
  constructor
  · intro hlen hall
    rcases l with _ | ⟨a, _ | ⟨b, _ | ⟨c, _ | ⟨e, rest⟩⟩⟩⟩
    · rfl
    · obtain ⟨n, h⟩ := Option.isSome_iff_exists.mp (hall a (by simp))
      simp [deserializeDim4, nextU64, DResult.bind, h]
    · obtain ⟨n, h⟩ := Option.isSome_iff_exists.mp (hall a (by simp))
      obtain ⟨m, h2⟩ := Option.isSome_iff_exists.mp (hall b (by simp))
      simp [deserializeDim4, nextU64, DResult.bind, h, h2]
    · obtain ⟨n, h⟩ := Option.isSome_iff_exists.mp (hall a (by simp))
      obtain ⟨m, h2⟩ := Option.isSome_iff_exists.mp (hall b (by simp))
      obtain ⟨k, h3⟩ := Option.isSome_iff_exists.mp (hall c (by simp))
      simp [deserializeDim4, nextU64, DResult.bind, h, h2, h3]
    · simp only [List.length_cons] at hlen
      omega
  · intro a b c e rest hl hbad
    subst hl
    rcases h : valAsU64 a with _ | n
    · simp [deserializeDim4, nextU64, DResult.bind, h]
    rcases h2 : valAsU64 b with _ | m
    · simp [deserializeDim4, nextU64, DResult.bind, h, h2]
    rcases h3 : valAsU64 c with _ | k
    · simp [deserializeDim4, nextU64, DResult.bind, h, h2, h3]
    rcases h4 : valAsU64 e with _ | j
    · simp [deserializeDim4, nextU64, DResult.bind, h, h2, h3, h4]
    exfalso
    rw [h, h2, h3, h4] at hbad
    simp at hbad

/-- The short-record and mistyped-element behaviours at concrete inputs:
a 1-element record panics, and a 4-element record whose first element is a
boolean fails with `FormatError`. -/
theorem dim4_decode_failures_witness :
    deserializeDim4 [Val.u64 1] = DResult.panicked ∧
    deserializeDim4 [Val.b true, Val.u64 1, Val.u64 2, Val.u64 3]
      = DResult.formatError :=
  ⟨(dim4_decode_failures [Val.u64 1]).1 (by decide) (by decide),
   (dim4_decode_failures [Val.b true, Val.u64 1, Val.u64 2, Val.u64 3]).2
     (Val.b true) (Val.u64 1) (Val.u64 2) (Val.u64 3) [] rfl (by decide)⟩

/-- Does a wire scalar have exactly the representation type that the given
element type's `Vec<T>` (de)serialization produces/expects? Wider serde
numeric coercions (such as integers accepted where floats are expected by
some formats) are abstracted away: encoded tensors always carry exactly
these representations. -/
def valHasType (d : DType) (v : Val) : Bool :=
  match d, v with
  | .F32, .f32 _ => true
  | .F64, .f64 _ => true
  | .S16, .i16 _ => true
  | .S32, .i32 _ => true
  | .S64, .i64 _ => true
  | .U16, .u16 _ => true
  | .U32, .u32 _ => true
  | .U64, .u64 _ => true
  | .B8, .b _ => true
  | _, _ => false

/-- An arrayfire `Array` as the codec observes it: an element type
(`get_type`), a shape (`dims`), and the flat host copy of its elements in
engine order (`host` into a buffer of `elements()` values). -/
structure AfArray where
  dtype : DType
  dims : Dim4
  data : List Val
deriving DecidableEq, Repr

/-- The invariant every engine-constructed array satisfies: the flat buffer
holds exactly `elements()` values, each of the array's element type. -/
def AfArray.wf (a : AfArray) : Prop :=
  a.data.length = a.dims.elements ∧ a.data.all (valHasType a.dtype) = true

/-- The wire form of a serialized `Array`: the 3-element ordered record
`serialize_tuple(3)` produces — element-type tag, shape tuple, element
sequence, in that order. -/
structure Record where
  tag : Nat
  shape : List Val
  elems : List Val
deriving DecidableEq, Repr

/-- `Ser<Array>::serialize`: emits the element-type tag and the shape, then
matches on the element type to pick which `get_data::<T>` host copy is
serialized as the element sequence; the default arm is
`panic!("unimplemented serialization for complex types!")`. -/
def serializeArray (a : AfArray) : DResult Record :=
  match a.dtype with
  | .F32 => .ok ⟨serializeDType a.dtype, serializeDim4 a.dims, a.data⟩
  | .F64 => .ok ⟨serializeDType a.dtype, serializeDim4 a.dims, a.data⟩
  | .S16 => .ok ⟨serializeDType a.dtype, serializeDim4 a.dims, a.data⟩
  | .S32 => .ok ⟨serializeDType a.dtype, serializeDim4 a.dims, a.data⟩
  | .S64 => .ok ⟨serializeDType a.dtype, serializeDim4 a.dims, a.data⟩
  | .U16 => .ok ⟨serializeDType a.dtype, serializeDim4 a.dims, a.data⟩
  | .U32 => .ok ⟨serializeDType a.dtype, serializeDim4 a.dims, a.data⟩
  | .U64 => .ok ⟨serializeDType a.dtype, serializeDim4 a.dims, a.data⟩
  | .B8 => .ok ⟨serializeDType a.dtype, serializeDim4 a.dims, a.data⟩
  | _ => .panicked

/-- `seq.next_element::<Vec<T>>()` for the element sequence: every wire
element must deserialize at the representation type `T`, else the `?`
propagates serde's type error. -/
def parseTypedVec (d : DType) (l : List Val) : DResult (List Val) :=
  if l.all (valHasType d) then .ok l else .formatError

/-- `Array::new::<T>(data.as_slice(), *dim)`: the engine copies exactly
`dim.elements()` values from the start of the slice — surplus elements are
ignored, and a slice shorter than `dim.elements()` is an out-of-bounds read
(undefined behaviour). No length validation is performed. -/
def arrayNew (d : DType) (data : List Val) (dim : Dim4) : DResult AfArray :=
  if dim.elements ≤ data.length then .ok ⟨d, dim, data.take dim.elements⟩
  else .ub

/-- `De<Array>::deserialize` via `ArrayVisitor::visit_seq`: reads the
element type, then the shape, then matches on the decoded type to pick
which `Vec<T>` reader consumes the element sequence; the default arm is
`panic!("unimplemented deserialization for complex types!")`. -/
def deserializeArray (r : Record) : DResult AfArray :=
  DResult.bind (visitU8 r.tag) fun dtype =>
  DResult.bind (deserializeDim4 r.shape) fun dim =>
  match dtype with
  | .F32 => DResult.bind (parseTypedVec .F32 r.elems) fun data => arrayNew .F32 data dim
  | .F64 => DResult.bind (parseTypedVec .F64 r.elems) fun data => arrayNew .F64 data dim
  | .S16 => DResult.bind (parseTypedVec .S16 r.elems) fun data => arrayNew .S16 data dim
  | .S32 => DResult.bind (parseTypedVec .S32 r.elems) fun data => arrayNew .S32 data dim
  | .S64 => DResult.bind (parseTypedVec .S64 r.elems) fun data => arrayNew .S64 data dim
  | .U16 => DResult.bind (parseTypedVec .U16 r.elems) fun data => arrayNew .U16 data dim
  | .U32 => DResult.bind (parseTypedVec .U32 r.elems) fun data => arrayNew .U32 data dim
  | .U64 => DResult.bind (parseTypedVec .U64 r.elems) fun data => arrayNew .U64 data dim
  | .B8 => DResult.bind (parseTypedVec .B8 r.elems) fun data => arrayNew .B8 data dim
  | _ => .panicked

/-- Decoding the emitted tag recovers the element type (shared helper). -/
theorem visitU8_serializeDType (d : DType) :
    visitU8 (serializeDType d) = DResult.ok d := by
  cases d <;> rfl

/-- On a supported element type, serialization succeeds and emits the
ordered record (tag, shape, elements) (shared helper). -/
theorem serializeArray_supported (a : AfArray)
    (hs : a.dtype.isSupported = true) :
    serializeArray a
      = DResult.ok ⟨serializeDType a.dtype, serializeDim4 a.dims, a.data⟩ := by
  obtain ⟨d, dims, data⟩ := a
  cases d <;> simp_all [serializeArray, DType.isSupported]

/-- Decoding a record whose tag decodes to a supported element type and
whose element sequence is well-typed reduces to the engine constructor
`Array::new` on the raw element list (shared helper): no length validation
happens before the constructor. -/
theorem deserializeArray_typed (tag : Nat) (d : DType) (dim : Dim4)
    (es : List Val) (htag : visitU8 tag = DResult.ok d)
    (hs : d.isSupported = true) (hty : es.all (valHasType d) = true) :
    deserializeArray ⟨tag, serializeDim4 dim, es⟩ = arrayNew d es dim := by
  simp only [deserializeArray, htag, deserializeDim4_serializeDim4,
    DResult.bind]
  cases d <;> simp_all [parseTypedVec, DResult.bind, DType.isSupported]

/-- C1: round-trip — for every tensor whose element type is one of the nine
supported kinds and whose flat element buffer matches its shape, decoding
the record produced by encoding it yields a tensor equal to the original in
element type, shape and element values (floating-point elements are carried
as raw bit patterns, so equality is bit-exact). -/
theorem array_roundtrip (a : AfArray) (hs : a.dtype.isSupported = true)
    (hwf : a.wf) :
    DResult.bind (serializeArray a) deserializeArray = DResult.ok a := by
  obtain ⟨hlen, hty⟩ := hwf
  rw [serializeArray_supported a hs, DResult.bind,
    deserializeArray_typed (serializeDType a.dtype) a.dtype a.dims a.data
      (visitU8_serializeDType a.dtype) hs hty]
  simp only [arrayNew, if_pos hlen.ge]
  rw [← hlen, List.take_length]

/-- The round-trip at the crate's own `test_array` input: a float64 tensor
of shape [2,2,1,1] with four elements. -/
theorem array_roundtrip_witness :
    DResult.bind
      (serializeArray ⟨DType.F64, ⟨2, 2, 1, 1⟩,
        [Val.f64 1, Val.f64 2, Val.f64 3, Val.f64 4]⟩) deserializeArray
      = DResult.ok ⟨DType.F64, ⟨2, 2, 1, 1⟩,
          [Val.f64 1, Val.f64 2, Val.f64 3, Val.f64 4]⟩ :=
  array_roundtrip ⟨DType.F64, ⟨2, 2, 1, 1⟩,
    [Val.f64 1, Val.f64 2, Val.f64 3, Val.f64 4]⟩ (by decide)
    ⟨by decide, by decide⟩

/-- C4: serializing a tensor with a complex element type does not return a
typed error — the default match arm executes
`panic!("unimplemented serialization for complex types!")`, aborting the
process (the code defines no `UnsupportedTypeError`). -/
theorem array_serialize_complex_panic :
    serializeArray ⟨DType.C32, ⟨1, 1, 1, 1⟩, []⟩ = DResult.panicked ∧
    serializeArray ⟨DType.C64, ⟨2, 2, 1, 1⟩, []⟩ = DResult.panicked ∧
    ¬ serializeArray ⟨DType.C32, ⟨1, 1, 1, 1⟩, []⟩ = DResult.formatError := by
  decide

/-- C5 counterexample: a float64 record with shape [1,1,1,1]
(product 1) and an element sequence of length 5 does not fail with
`FormatError` — it decodes successfully to a tensor built from the first
element. -/
theorem array_decode_length_mismatch_counterexample :
    deserializeArray ⟨2, [Val.u64 1, Val.u64 1, Val.u64 1, Val.u64 1],
        [Val.f64 10, Val.f64 20, Val.f64 30, Val.f64 40, Val.f64 50]⟩
      = DResult.ok ⟨DType.F64, ⟨1, 1, 1, 1⟩, [Val.f64 10]⟩ ∧
    ¬ deserializeArray ⟨2, [Val.u64 1, Val.u64 1, Val.u64 1, Val.u64 1],
        [Val.f64 10, Val.f64 20, Val.f64 30, Val.f64 40, Val.f64 50]⟩
      = DResult.formatError := by
  decide

/-- C5 amended: tensor deserialization performs no element-count
validation. With a supported decoded tag and a well-typed element sequence,
a sequence longer than product(shape) decodes successfully to a tensor made
of the first product(shape) elements, and a shorter sequence triggers an
out-of-bounds read in the engine constructor (undefined behaviour); neither
case yields a `FormatError`. -/
theorem array_decode_no_length_check (tag : Nat) (d : DType) (dim : Dim4)
    (es : List Val) (htag : visitU8 tag = DResult.ok d)
    (hs : d.isSupported = true) (hty : es.all (valHasType d) = true) :
    deserializeArray ⟨tag, serializeDim4 dim, es⟩
      = if dim.elements ≤ es.length then
          DResult.ok ⟨d, dim, es.take dim.elements⟩
        else DResult.ub := by
  rw [deserializeArray_typed tag d dim es htag hs hty]
  rfl

/-- The no-length-check behaviour at concrete inputs: a float64 record of
shape [1,1,1,1] with two elements decodes to the one-element tensor. -/
theorem array_decode_no_length_check_witness :
    deserializeArray ⟨2, serializeDim4 ⟨1, 1, 1, 1⟩, [Val.f64 7, Val.f64 8]⟩
      = DResult.ok ⟨DType.F64, ⟨1, 1, 1, 1⟩, [Val.f64 7]⟩ := by
  have h := array_decode_no_length_check 2 DType.F64 ⟨1, 1, 1, 1⟩
    [Val.f64 7, Val.f64 8] (by decide) (by decide) (by decide)
  simpa using h

/-- C6: serialization emits the 3-element ordered record (element-type tag,
shape tuple, element sequence); deserialization reads the tag first, then
the shape, then dispatches to exactly the one typed sequence reader selected
by the already-decoded tag. -/
theorem array_codec_field_order :
    (∀ a : AfArray, a.dtype.isSupported = true →
      serializeArray a
        = DResult.ok ⟨serializeDType a.dtype, serializeDim4 a.dims, a.data⟩) ∧
    (∀ r : Record, deserializeArray r
      = DResult.bind (visitU8 r.tag) fun d =>
        DResult.bind (deserializeDim4 r.shape) fun dim =>
        if d.isSupported then
          DResult.bind (parseTypedVec d r.elems) fun data => arrayNew d data dim
        else DResult.panicked) := by
  refine ⟨fun a hs => serializeArray_supported a hs, fun r => ?_⟩
  cases ht : visitU8 r.tag with
  | ok d =>
    simp only [deserializeArray, ht, DResult.bind]
    cases hm : deserializeDim4 r.shape with
    | ok dim =>
      simp only [DResult.bind]
      cases d <;> simp [DType.isSupported]
    | formatError => rfl
    | panicked => rfl
    | ub => rfl
  | formatError => simp only [deserializeArray, ht, DResult.bind]
  | panicked => simp only [deserializeArray, ht, DResult.bind]
  | ub => simp only [deserializeArray, ht, DResult.bind]

/-- The field order and dispatch at concrete inputs: the `test_array`
tensor serializes to the record (2, (2,2,1,1), elements), and a record
whose shape field is short propagates the shape decoder's outcome. -/
theorem array_codec_field_order_witness :
    serializeArray ⟨DType.F64, ⟨2, 2, 1, 1⟩,
        [Val.f64 1, Val.f64 2, Val.f64 3, Val.f64 4]⟩
      = DResult.ok ⟨2, [Val.u64 2, Val.u64 2, Val.u64 1, Val.u64 1],
          [Val.f64 1, Val.f64 2, Val.f64 3, Val.f64 4]⟩ ∧
    deserializeArray ⟨2, [Val.u64 1], []⟩ = DResult.panicked :=
  ⟨array_codec_field_order.1 ⟨DType.F64, ⟨2, 2, 1, 1⟩,
      [Val.f64 1, Val.f64 2, Val.f64 3, Val.f64 4]⟩ (by decide),
   array_codec_field_order.2 ⟨2, [Val.u64 1], []⟩⟩

end ArrayfireSerde
